import Mathlib

/-!
Shallow embedding of the settings dialog of the DaylightFactor repository
(src/Revit_Plugin/Daylight-Factor/Settings.py), covering the Settings Store
(load/save of the JSON settings file) and the Form Controller
(collect/validate/prepare/submit and the population of the form from a
stored record).  Pure functions of the Python source become Lean functions;
the filesystem and the WPF controls become explicit state records; Python
exceptions become Except/Option results.  JSON data is modelled at the
abstract-syntax level (json.dump and json.load of the standard library are
mutually inverse on such values); numeric values are rationals.
-/

namespace Daylight

/-- JSON scalar values as they occur in the settings file: null, booleans,
integers and strings (the persisted record never contains nested objects,
arrays or non-integral numbers). -/
inductive JVal where
| null : JVal
| bool (b : Bool) : JVal
| int (n : Int) : JVal
| str (s : String) : JVal
deriving DecidableEq, Repr

/-- A flat JSON object, as a key-value association list (Python dict with
string keys; keys are unique in every object this program builds). -/
abbrev JObj := List (String × JVal)

/-- Python dict lookup d[k] returning the first binding of k, none if absent. -/
def jobjLookup (d : JObj) (k : String) : Option JVal :=
  (d.find? (fun p => p.1 = k)).map (fun p => p.2)

/-- Python dict.get(k, default): the stored value when the key is present,
the supplied default otherwise. -/
def jsonGet (d : JObj) (k : String) (default : JVal) : JVal :=
  (jobjLookup d k).getD default

/-- Models the Python builtin bool() applied to a JSON-decoded value:
None is falsy, a bool is itself, a number is truthy iff nonzero, a string
is truthy iff nonempty. -/
def pybool : JVal → Bool
| JVal.null => false
| JVal.bool b => b
| JVal.int n => n ≠ 0
| JVal.str s => s ≠ ""

/-- Models the Python builtin str() applied to a JSON-decoded value. -/
def pystr : JVal → String
| JVal.null => "None"
| JVal.bool b => if b then "True" else "False"
| JVal.int n => toString n
| JVal.str s => s

/-- Whitespace characters stripped by Python str.strip() and ignored at the
ends of the argument of int() and float(). -/
def pyWhitespace (c : Char) : Bool :=
  c = ' ' || c = '\t' || c = '\n' || c = '\r' || c = '\x0b' || c = '\x0c'

/-- Strip leading and trailing Python whitespace from a character list. -/
def pyStrip (cs : List Char) : List Char :=
  ((cs.dropWhile pyWhitespace).reverse.dropWhile pyWhitespace).reverse

/-- Numeric value of a list of decimal digits. -/
def digitsVal (cs : List Char) : Nat :=
  cs.foldl (fun a c => a * 10 + (c.toNat - 48)) 0

/-- Models the Python 2 builtin int() on a string (base 10): optional
surrounding whitespace, an optional sign, then one or more decimal digits;
any other input raises ValueError, modelled as none. -/
def pyIntOfString? (s : String) : Option Int :=
  match pyStrip s.toList with
  | [] => none
  | c :: rest =>
    if c = '-' then
      if rest ≠ [] ∧ rest.all Char.isDigit then some (-(digitsVal rest : Int))
      else none
    else if c = '+' then
      if rest ≠ [] ∧ rest.all Char.isDigit then some (digitsVal rest : Int)
      else none
    else if (c :: rest).all Char.isDigit then some (digitsVal (c :: rest) : Int)
    else none

/-- Models the Python builtin float() on a string, restricted to the plain
decimal literals (optional sign, digits with an optional fractional part)
that can occur in this program's data; anything else raises ValueError,
modelled as none. -/
def parseDecimal? (s : String) : Option ℚ :=
  let cs := pyStrip s.toList
  let core : List Char → Option ℚ := fun ds =>
    let ip := ds.takeWhile Char.isDigit
    match ds.dropWhile Char.isDigit with
    | [] => if ip ≠ [] then some ((digitsVal ip : ℚ)) else none
    | '.' :: fp =>
      if fp.all Char.isDigit ∧ (ip ≠ [] ∨ fp ≠ []) then
        some ((digitsVal ip : ℚ) + (digitsVal fp : ℚ) / ((10 : ℚ) ^ fp.length))
      else none
    | _ => none
  match cs with
  | '-' :: rest => (core rest).map (fun q => -q)
  | '+' :: rest => core rest
  | rest => core rest

/-- Models the Python builtin float() applied to a JSON-decoded value that
is not None: numbers convert exactly, booleans to 0 or 1, strings are
parsed (none models a raised ValueError/TypeError). -/
def pyfloat : JVal → Option ℚ
| JVal.null => none
| JVal.bool b => some (if b then 1 else 0)
| JVal.int n => some (n : ℚ)
| JVal.str s => parseDecimal? s

/-- Models int(round(x)) of Python 2: round half away from zero to an
integer. -/
def pyround (q : ℚ) : Int :=
  if 0 ≤ q then ⌊q + 1 / 2⌋ else -⌊-q + 1 / 2⌋

/-- Modelled from the spec: RevitApiHelper.feet_to_mm delegates to the host
API UnitUtils.ConvertFromInternalUnits, which is not part of this
repository; the spec fixes the native length unit as feet converted to
millimetres (its example converts 3.2 native units to 975.36 mm), so the
converter is multiplication by 304.8. -/
def feet_to_mm (value_ft : ℚ) : ℚ := value_ft * (3048 / 10)

/-- A building level supplied by the host document, exposing its elevation
in the host's native length unit (Revit internal feet). -/
structure Level where
  elevation : ℚ
deriving DecidableEq, Repr

/-- The state of the WPF controls of the settings window that the embedded
code reads and writes. The level combo box is modelled by the list bound
to ItemsSource together with the currently selected item. -/
structure UIState where
  radioButtonTrue : Bool
  radioButtonFalse : Bool
  textBoxTransmission : String
  execModeIndex : Int
  radioWriteYes : Bool
  radioWriteNo : Bool
  levels : List Level
  selectedLevel : Option Level
deriving DecidableEq, Repr

/-- The observable state of the settings file on disk: absent, present but
unreadable, present but not valid JSON, or valid JSON holding an object. -/
inductive FileState where
| absent : FileState
| unreadable : FileState
| invalidJson : FileState
| valid (d : JObj) : FileState
deriving DecidableEq, Repr

/-- os.path.isfile on the settings path. -/
def isfile : FileState → Bool
| FileState.absent => false
| _ => true

/-- Filesystem state threaded through the save path: the settings file, the
existence of its directory, and whether the two fallible operating-system
calls (os.makedirs and the file write) would succeed, with the error text
each would raise. The contents last written are kept alongside the parsed
form. -/
structure FS where
  file : FileState
  fileText : Option String
  dirExists : Bool
  dirCreateOk : Bool
  writeOk : Bool
  dirErr : String
  writeErr : String
deriving DecidableEq, Repr

/-- MessageBox.Show calls issued by the embedded code paths, carrying the
data the message text interpolates. -/
inductive Alert where
| missingLevel : Alert
| invalidInput (offending : String) : Alert
| dirError (reason : String) : Alert
| saveError (reason : String) : Alert
| loadError : Alert
deriving DecidableEq, Repr

/-- The dictionary _collect_ui_data builds from the form fields. -/
structure UIData where
  is_multilayer : Bool
  transmission_str : String
  exec_mode : String
  write_results : Bool
  selected_level : Level
deriving DecidableEq, Repr

/-- SettingsWindow._get_default_settings: the default settings values. -/
def default_settings : JObj :=
  [("multilayer_wall", JVal.bool false),
   ("transmission_value", JVal.int 70),
   ("level_elevation", JVal.null),
   ("execution_mode", JVal.str "web"),
   ("write_results", JVal.bool true)]

/-- SettingsWindow._select_level_by_elevation: when the stored value is not
None, scan the levels in order and select the first whose raw Elevation
(native units, no conversion) is within 0.001 of float(level_elevation);
otherwise fall through to SelectedIndex = 0, which selects the first level
(no selection when the list is empty). float() is evaluated inside the
loop body, so a malformed stored value raises (Except.error) only when at
least one level exists. -/
def select_level_by_elevation (levels : List Level) (level_elevation : JVal) :
    Except Unit (Option Level) :=
  if level_elevation = JVal.null then Except.ok levels.head?
  else
    match levels with
    | [] => Except.ok none
    | _ :: _ =>
      match pyfloat level_elevation with
      | none => Except.error ()
      | some e =>
        match levels.find? (fun lvl => |lvl.elevation - e| < 1 / 1000) with
        | some lvl => Except.ok (some lvl)
        | none => Except.ok levels.head?

/-- Modelled from the spec: the selection rule as the specification words
it, comparing each level's elevation converted to millimetres with the
stored value; used only to contrast with the source's
select_level_by_elevation. -/
def select_level_spec (levels : List Level) (level_elevation : Option ℚ) :
    Option Level :=
  match level_elevation with
  | none => levels.head?
  | some e =>
    match levels.find? (fun lvl => |feet_to_mm lvl.elevation - e| < 1 / 1000) with
    | some lvl => some lvl
    | none => levels.head?

/-- SettingsWindow._apply_settings_to_ui: read the five values out of the
loaded dictionary with per-key defaults, write them into the controls, then
select the level. An error value carries the control state already mutated
before float(level_elevation) raised. -/
def apply_settings_to_ui (d : JObj) (ui : UIState) : Except UIState UIState :=
  let is_multilayer := pybool (jsonGet d "multilayer_wall" (JVal.bool false))
  let transmission_val := pystr (jsonGet d "transmission_value" (JVal.int 70))
  let level_elevation := jsonGet d "level_elevation" JVal.null
  let exec_mode := jsonGet d "execution_mode" (JVal.str "web")
  let write_results := pybool (jsonGet d "write_results" (JVal.bool true))
  let ui1 : UIState :=
    { ui with
      radioButtonTrue := is_multilayer
      radioButtonFalse := !is_multilayer
      textBoxTransmission := transmission_val
      execModeIndex := if exec_mode = JVal.str "local" then 1 else 0
      radioWriteYes := write_results
      radioWriteNo := !write_results }
  match select_level_by_elevation ui1.levels level_elevation with
  | Except.error _ => Except.error ui1
  | Except.ok sel => Except.ok { ui1 with selectedLevel := sel }

/-- SettingsWindow._apply_default_ui_values: fallback applied in the except
branch of _load_settings; note it touches only the multilayer radios, the
transmission text box and the level selection, not the execution-mode combo
box or the write-results radios. -/
def apply_default_ui_values (ui : UIState) : UIState :=
  { ui with
    radioButtonFalse := true
    radioButtonTrue := false
    textBoxTransmission := "70"
    selectedLevel := ui.levels.head? }

/-- Result of SettingsWindow._load_settings_from_file: the parsed object,
or a raised exception when the file cannot be opened or json.load fails. -/
inductive ReadResult where
| ok (d : JObj) : ReadResult
| raised : ReadResult
deriving DecidableEq, Repr

/-- SettingsWindow._load_settings_from_file: codecs.open plus json.load;
raises unless the file is present, readable and valid JSON. -/
def load_settings_from_file : FileState → ReadResult
| FileState.valid d => ReadResult.ok d
| _ => ReadResult.raised

/-- SettingsWindow._load_settings: populate the level combo box (which
resets the selection), then read the file if present else take the
defaults, and apply to the UI; any exception is caught, the Load Error
message box is shown (the returned flag) and _apply_default_ui_values
runs. -/
def load_settings (file : FileState) (ui : UIState) (lvls : List Level) :
    UIState × Bool :=
  let ui1 : UIState := { ui with levels := lvls, selectedLevel := none }
  if isfile file then
    match load_settings_from_file file with
    | ReadResult.raised => (apply_default_ui_values ui1, true)
    | ReadResult.ok d =>
      match apply_settings_to_ui d ui1 with
      | Except.ok s => (s, false)
      | Except.error s => (apply_default_ui_values s, true)
  else
    match apply_settings_to_ui default_settings ui1 with
    | Except.ok s => (s, false)
    | Except.error s => (apply_default_ui_values s, true)

/-- SettingsWindow._collect_ui_data: none (with the Missing Level alert at
the call site) when no level is selected, else the ui_data dictionary. -/
def collect_ui_data (ui : UIState) : Option UIData :=
  match ui.selectedLevel with
  | none => none
  | some lvl =>
    some
      { is_multilayer := ui.radioButtonTrue
        transmission_str := ui.textBoxTransmission
        exec_mode := if ui.execModeIndex = 1 then "local" else "web"
        write_results := ui.radioWriteYes
        selected_level := lvl }

/-- SettingsWindow._validate_inputs: int() on the transmission text, then
the range check 0 <= value <= 100; on either failure the Invalid Input
message box carries the offending string, modelled as the error value. -/
def validate_inputs (transmission_str : String) : Except String Int :=
  match pyIntOfString? transmission_str with
  | some t =>
    if 0 ≤ t ∧ t ≤ 100 then Except.ok t else Except.error transmission_str
  | none => Except.error transmission_str

/-- SettingsWindow._prepare_settings_data: assemble the record to persist,
converting the selected level's elevation to millimetres and rounding to
the nearest integer. -/
def prepare_settings_data (u : UIData) (transmission_value : Int) : JObj :=
  [("multilayer_wall", JVal.bool u.is_multilayer),
   ("transmission_value", JVal.int transmission_value),
   ("level_elevation",
     JVal.int (pyround (feet_to_mm u.selected_level.elevation))),
   ("execution_mode", JVal.str u.exec_mode),
   ("write_results", JVal.bool u.write_results)]

/-- SettingsWindow._ensure_settings_directory: create the directory when it
does not exist; on OSError show the Directory Error box and re-raise,
modelled as returning the raised error text. -/
def ensure_settings_directory (fs : FS) : FS × Option String :=
  if fs.dirExists then (fs, none)
  else if fs.dirCreateOk then ({ fs with dirExists := true }, none)
  else (fs, some fs.dirErr)

/-- Escape a string for JSON output (the strings this program writes need
only the quote and backslash escapes). -/
def jsonEscape (s : String) : String :=
  String.mk (s.toList.foldr
    (fun c acc =>
      if c = '"' then '\\' :: '"' :: acc
      else if c = '\\' then '\\' :: '\\' :: acc
      else c :: acc) [])

/-- Rendering of one JSON scalar, as json.dump writes it. -/
def renderJVal : JVal → String
| JVal.null => "null"
| JVal.bool b => if b then "true" else "false"
| JVal.int n => toString n
| JVal.str s => "\"" ++ jsonEscape s ++ "\""

/-- Code-point lexicographic comparison of character lists: the order in
which Python compares the (byte) strings that occur as keys here. -/
def charsLe : List Char → List Char → Bool
| [], _ => true
| _ :: _, [] => false
| a :: as, b :: bs =>
  if a.toNat < b.toNat then true
  else if b.toNat < a.toNat then false
  else charsLe as bs

/-- Models Python string comparison (code-point lexicographic), the key
order produced by json.dump with sort_keys=True. -/
def pyStrLe (a b : String) : Bool := charsLe a.toList b.toList

/-- Insert a key-value pair into a list sorted by key. -/
def insertPair (p : String × JVal) : JObj → JObj
| [] => [p]
| q :: qs => if pyStrLe p.1 q.1 then p :: q :: qs else q :: insertPair p qs

/-- Sort an object's bindings lexicographically by key (json.dump with
sort_keys=True). -/
def sortByKey : JObj → JObj
| [] => []
| p :: ps => insertPair p (sortByKey ps)

/-- The exact text json.dump(obj, f, indent=4, sort_keys=True) writes for a
flat object: keys sorted, each binding on its own line indented four
spaces, bindings separated by commas. -/
def json_dump_string (d : JObj) : String :=
  match sortByKey d with
  | [] => "\x7b\x7d"
  | items =>
    "\x7b\n" ++
      String.intercalate ",\n"
        (items.map (fun p =>
          "    \"" ++ jsonEscape p.1 ++ "\": " ++ renderJVal p.2)) ++
      "\n\x7d"

/-- SettingsWindow._save_settings_to_file: ensure the directory, then write
the JSON dump; every failure is caught, the Save Error box (carrying the
exception text) is shown, and False is returned instead of raising. -/
def save_settings_to_file (d : JObj) (fs : FS) : FS × Bool × List Alert :=
  match ensure_settings_directory fs with
  | (fs1, some e) => (fs1, false, [Alert.dirError e, Alert.saveError e])
  | (fs1, none) =>
    if fs1.writeOk then
      ({ fs1 with
          file := FileState.valid d
          fileText := some (json_dump_string d) }, true, [])
    else (fs1, false, [Alert.saveError fs1.writeErr])

/-- Outcome of one click of the save button: the filesystem afterwards,
whether the dialog closed, the message boxes shown, and the record written
(some only when the write succeeded). -/
structure ClickResult where
  fs : FS
  closed : Bool
  alerts : List Alert
  written : Option JObj
deriving DecidableEq, Repr

/-- SettingsWindow.save_button_click: collect, validate, prepare, save;
each failing step aborts the submit with its message box and leaves the
dialog open; the window closes only after a successful save. -/
def save_button_click (ui : UIState) (fs : FS) : ClickResult :=
  match collect_ui_data ui with
  | none => ⟨fs, false, [Alert.missingLevel], none⟩
  | some u =>
    match validate_inputs u.transmission_str with
    | Except.error s => ⟨fs, false, [Alert.invalidInput s], none⟩
    | Except.ok t =>
      let d := prepare_settings_data u t
      match save_settings_to_file d fs with
      | (fs1, true, msgs) => ⟨fs1, true, msgs, some d⟩
      | (fs1, false, msgs) => ⟨fs1, false, msgs, none⟩

/-- The persisted entity: the five fields of the settings record with
their storage types. -/
structure SettingsRecord where
  multilayer_wall : Bool
  transmission_value : Int
  level_elevation : Option Int
  execution_mode : String
  write_results : Bool
deriving DecidableEq, Repr

/-- The JSON object a well-formed SettingsRecord is stored as (field order
as _prepare_settings_data builds it). -/
def toJObj (r : SettingsRecord) : JObj :=
  [("multilayer_wall", JVal.bool r.multilayer_wall),
   ("transmission_value", JVal.int r.transmission_value),
   ("level_elevation",
     match r.level_elevation with
     | some n => JVal.int n
     | none => JVal.null),
   ("execution_mode", JVal.str r.execution_mode),
   ("write_results", JVal.bool r.write_results)]

/-! Helper lemmas shared by the claim theorems. -/

lemma select_level_null_eq (lvls : List Level) :
    select_level_by_elevation lvls JVal.null = Except.ok lvls.head? := by
  simp [select_level_by_elevation]

lemma select_level_int_ok (lvls : List Level) (n : Int) :
    ∃ sel, select_level_by_elevation lvls (JVal.int n) = Except.ok sel := by
  unfold select_level_by_elevation
  cases lvls with
  | nil => exact ⟨none, by simp⟩
  | cons a as =>
    simp only [pyfloat, reduceCtorEq, if_false]
    cases h : List.find? (fun lvl => decide (|lvl.elevation - (n : ℚ)| < 1 / 1000)) (a :: as) with
    | none => exact ⟨(a :: as).head?, by simp [h]⟩
    | some lvl => exact ⟨some lvl, by simp [h]⟩

lemma validate_inputs_ok_bounds {s : String} {t : Int}
    (h : validate_inputs s = Except.ok t) :
    pyIntOfString? s = some t ∧ 0 ≤ t ∧ t ≤ 100 := by
  cases hp : pyIntOfString? s with
  | none => simp [validate_inputs, hp] at h
  | some u =>
    simp only [validate_inputs, hp] at h
    split_ifs at h with hb
    obtain rfl : u = t := by simpa using h
    exact ⟨rfl, hb⟩

/-- C1. The claim says _select_level_by_elevation selects the level whose
elevation CONVERTED TO MILLIMETRES is within 0.001 of the stored
level_elevation. The code compares the raw native-unit Elevation against
the stored millimetre value without converting, while the save path stores
millimetres; at levels whose elevations convert to 0, 3000 and 6000 mm and
a stored value of 3000, the code selects the first level (elevation 0)
although the 3000 mm level matches the claim's rule exactly. -/
theorem c1_unit_mismatch_divergence :
    feet_to_mm (1250 / 127 : ℚ) = 3000 ∧
    select_level_by_elevation
      [Level.mk 0, Level.mk (1250 / 127), Level.mk (2500 / 127)]
      (JVal.int 3000) = Except.ok (some (Level.mk 0)) ∧
    select_level_spec
      [Level.mk 0, Level.mk (1250 / 127), Level.mk (2500 / 127)]
      (some 3000) = some (Level.mk (1250 / 127)) := by
  have hc : ((3000 : Int) : ℚ) = (3000 : ℚ) := by norm_num
  have d0 : (decide (|(0 : ℚ) - 3000| < 1 / 1000)) = false := by
    rw [decide_eq_false_iff_not, abs_lt]
    norm_num
  have d1 : (decide (|(1250 / 127 : ℚ) - 3000| < 1 / 1000)) = false := by
    rw [decide_eq_false_iff_not, abs_lt]
    norm_num
  have d2 : (decide (|(2500 / 127 : ℚ) - 3000| < 1 / 1000)) = false := by
    rw [decide_eq_false_iff_not, abs_lt]
    norm_num
  have s0 : (decide (|feet_to_mm (0 : ℚ) - 3000| < 1 / 1000)) = false := by
    rw [decide_eq_false_iff_not, abs_lt]
    norm_num [feet_to_mm]
  have s1 : (decide (|feet_to_mm (1250 / 127 : ℚ) - 3000| < 1 / 1000)) = true := by
    rw [decide_eq_true_eq]
    norm_num [feet_to_mm, abs_lt]
  refine ⟨by norm_num [feet_to_mm], ?_, ?_⟩
  · simp only [select_level_by_elevation, pyfloat, hc, List.find?,
      reduceCtorEq, if_false, d0, d1, d2, List.head?_cons]
  · simp only [select_level_spec, List.find?, s0, s1]

/-- C2. _validate_inputs succeeds exactly on strings that int() parses to
an integer t with 0 <= t <= 100, yielding that t; every other string is
rejected with the Invalid Input message carrying the original offending
string. -/
theorem c2_validate_characterisation (s : String) :
    (∀ t : Int, validate_inputs s = Except.ok t ↔
      pyIntOfString? s = some t ∧ 0 ≤ t ∧ t ≤ 100) ∧
    (validate_inputs s = Except.error s ∨
      ∃ t : Int, validate_inputs s = Except.ok t) := by
  constructor
  · intro t
    constructor
    · exact validate_inputs_ok_bounds
    · rintro ⟨hp, h0, h1⟩
      simp [validate_inputs, hp, h0, h1]
  · cases hp : pyIntOfString? s with
    | none => exact Or.inl (by simp [validate_inputs, hp])
    | some u =>
      by_cases hb : 0 ≤ u ∧ u ≤ 100
      · exact Or.inr ⟨u, by simp [validate_inputs, hp, hb.1, hb.2]⟩
      · exact Or.inl (by simp only [validate_inputs, hp, if_neg hb])

/-- Concrete instance of c2_validate_characterisation: the string 85
validates to the integer 85. -/
theorem c2_witness_validate : validate_inputs "85" = Except.ok 85 :=
  ((c2_validate_characterisation "85").1 85).mpr
    ⟨by decide, by decide, by decide⟩

/-- C4 counterexample. When the settings file is absent, _load_settings
applies the defaults through _get_default_settings without showing the
Load Error notification, contradicting the claim that an absent file
signals a recoverable load error. -/
theorem c4_absent_no_error_signal :
    (load_settings FileState.absent
      (UIState.mk false false "" 0 false false [] none)
      [Level.mk 0]).2 = false := by
  decide

/-- C4 amended. Load never raises: an absent file yields the full default
record (multilayer false, transmission 70, execution mode web = index 0,
write_results true, first level selected) with no error signalled; an
unreadable or invalid-JSON file signals the load error and applies the
fallback defaults to the multilayer radios, the transmission text and the
level selection only, leaving the execution-mode and write-results
controls unchanged. -/
theorem c4_amended_load_behaviour (ui : UIState) (lvls : List Level) :
    load_settings FileState.absent ui lvls =
      ({ ui with
          levels := lvls
          selectedLevel := lvls.head?
          radioButtonTrue := false
          radioButtonFalse := true
          textBoxTransmission := "70"
          execModeIndex := 0
          radioWriteYes := true
          radioWriteNo := false }, false) ∧
    load_settings FileState.unreadable ui lvls =
      ({ ui with
          levels := lvls
          selectedLevel := lvls.head?
          radioButtonTrue := false
          radioButtonFalse := true
          textBoxTransmission := "70" }, true) ∧
    load_settings FileState.invalidJson ui lvls =
      ({ ui with
          levels := lvls
          selectedLevel := lvls.head?
          radioButtonTrue := false
          radioButtonFalse := true
          textBoxTransmission := "70" }, true) := by
  refine ⟨?_, rfl, rfl⟩
  show (match apply_settings_to_ui default_settings
      { ui with levels := lvls, selectedLevel := none } with
    | Except.ok s => (s, false)
    | Except.error s => (apply_default_ui_values s, true)) = _
  rfl

/-- C5. A submit with no level selected aborts immediately: the Missing
Level message is shown, nothing later runs, nothing is written and the
filesystem (the settings file included) is unchanged, and the dialog does
not close. -/
theorem c5_missing_level_aborts (ui : UIState) (fs : FS)
    (h : ui.selectedLevel = none) :
    save_button_click ui fs = ⟨fs, false, [Alert.missingLevel], none⟩ := by
  unfold save_button_click collect_ui_data
  rw [h]

/-- Concrete instance of c5_missing_level_aborts: submitting with no level
selected leaves the file state untouched and shows only the Missing Level
alert. -/
theorem c5_witness_missing_level :
    save_button_click
      (UIState.mk true false "85" 1 false true [Level.mk 0] none)
      (FS.mk FileState.absent none true true true "" "") =
      ⟨FS.mk FileState.absent none true true true "" "", false,
        [Alert.missingLevel], none⟩ :=
  c5_missing_level_aborts _ _ rfl

/-- C3. Saving a well-formed record and loading it back round-trips: the
write succeeds, the file then holds exactly the saved object,
_load_settings_from_file returns it unchanged, the per-key reads that load
performs recover every field of the record (no default is substituted),
and loading such a file never takes the default-substitution error path
(that path is reserved for absent or corrupt files). -/
theorem c3_save_load_roundtrip (r : SettingsRecord) (fs : FS)
    (hdir : fs.dirExists = true) (hw : fs.writeOk = true) :
    (save_settings_to_file (toJObj r) fs).2.1 = true ∧
    (save_settings_to_file (toJObj r) fs).1.file = FileState.valid (toJObj r) ∧
    load_settings_from_file (save_settings_to_file (toJObj r) fs).1.file =
      ReadResult.ok (toJObj r) ∧
    pybool (jsonGet (toJObj r) "multilayer_wall" (JVal.bool false)) =
      r.multilayer_wall ∧
    jsonGet (toJObj r) "transmission_value" (JVal.int 70) =
      JVal.int r.transmission_value ∧
    jsonGet (toJObj r) "level_elevation" JVal.null =
      (match r.level_elevation with
       | some n => JVal.int n
       | none => JVal.null) ∧
    jsonGet (toJObj r) "execution_mode" (JVal.str "web") =
      JVal.str r.execution_mode ∧
    pybool (jsonGet (toJObj r) "write_results" (JVal.bool true)) =
      r.write_results ∧
    (∀ ui lvls, (load_settings (FileState.valid (toJObj r)) ui lvls).2 = false) := by
  have hsave : save_settings_to_file (toJObj r) fs =
      ({ fs with
          file := FileState.valid (toJObj r)
          fileText := some (json_dump_string (toJObj r)) }, true, []) := by
    simp [save_settings_to_file, ensure_settings_directory, hdir, hw]
  refine ⟨by rw [hsave], by rw [hsave], by rw [hsave]; rfl,
    by simp [jsonGet, jobjLookup, toJObj, pybool],
    by simp [jsonGet, jobjLookup, toJObj],
    by simp [jsonGet, jobjLookup, toJObj],
    by simp [jsonGet, jobjLookup, toJObj],
    by simp [jsonGet, jobjLookup, toJObj, pybool], ?_⟩
  intro ui lvls
  have hget : jsonGet (toJObj r) "level_elevation" JVal.null =
      (match r.level_elevation with
       | some n => JVal.int n
       | none => JVal.null) := by
    simp [jsonGet, jobjLookup, toJObj]
  cases hr : r.level_elevation with
  | none =>
    rw [hr] at hget
    simp [load_settings, isfile, load_settings_from_file,
      apply_settings_to_ui, hget, select_level_null_eq]
  | some n =>
    rw [hr] at hget
    obtain ⟨sel, hsel⟩ := select_level_int_ok lvls n
    simp [load_settings, isfile, load_settings_from_file,
      apply_settings_to_ui, hget, hsel]

/-- Concrete instance of c3_save_load_roundtrip: the record (multilayer
true, transmission 85, elevation 3000 mm, local mode, no write-results)
survives the save/load round trip through the file. -/
theorem c3_witness_roundtrip :
    load_settings_from_file
      (save_settings_to_file
        (toJObj (SettingsRecord.mk true 85 (some 3000) "local" false))
        (FS.mk FileState.absent none true true true "" "")).1.file =
      ReadResult.ok (toJObj (SettingsRecord.mk true 85 (some 3000) "local" false)) :=
  (c3_save_load_roundtrip (SettingsRecord.mk true 85 (some 3000) "local" false)
    (FS.mk FileState.absent none true true true "" "") rfl rfl).2.2.1

/-- C6. A fully valid submit (a level selected, the transmission text
parsing to an integer in range, directory present, write succeeding)
persists exactly the object built by _prepare_settings_data: the written
text is its JSON dump (sorted keys, 4-space indent), the keys are exactly
the five record keys in lexicographic order, level_elevation is the
selected level's elevation converted to millimetres and rounded to the
nearest integer, and transmission_value is the validated integer. -/
theorem c6_valid_submit_persists (ui : UIState) (fs : FS) (lvl : Level) (t : Int)
    (hsel : ui.selectedLevel = some lvl)
    (hparse : pyIntOfString? ui.textBoxTransmission = some t)
    (h0 : 0 ≤ t) (h1 : t ≤ 100)
    (hdir : fs.dirExists = true) (hw : fs.writeOk = true) :
    ∃ d : JObj,
      (save_button_click ui fs).written = some d ∧
      (save_button_click ui fs).fs.file = FileState.valid d ∧
      (save_button_click ui fs).fs.fileText = some (json_dump_string d) ∧
      (sortByKey d).map Prod.fst =
        ["execution_mode", "level_elevation", "multilayer_wall",
         "transmission_value", "write_results"] ∧
      jobjLookup d "level_elevation" =
        some (JVal.int (pyround (feet_to_mm lvl.elevation))) ∧
      jobjLookup d "transmission_value" = some (JVal.int t) := by
  have hval : validate_inputs ui.textBoxTransmission = Except.ok t := by
    simp [validate_inputs, hparse, h0, h1]
  have hclick : save_button_click ui fs =
      ⟨{ fs with
          file := FileState.valid (prepare_settings_data
            (UIData.mk ui.radioButtonTrue ui.textBoxTransmission
              (if ui.execModeIndex = 1 then "local" else "web")
              ui.radioWriteYes lvl) t)
          fileText := some (json_dump_string (prepare_settings_data
            (UIData.mk ui.radioButtonTrue ui.textBoxTransmission
              (if ui.execModeIndex = 1 then "local" else "web")
              ui.radioWriteYes lvl) t)) },
        true, [],
        some (prepare_settings_data
          (UIData.mk ui.radioButtonTrue ui.textBoxTransmission
            (if ui.execModeIndex = 1 then "local" else "web")
            ui.radioWriteYes lvl) t)⟩ := by
    simp [save_button_click, collect_ui_data, hsel, hval,
      save_settings_to_file, ensure_settings_directory, hdir, hw]
  refine ⟨prepare_settings_data
      (UIData.mk ui.radioButtonTrue ui.textBoxTransmission
        (if ui.execModeIndex = 1 then "local" else "web")
        ui.radioWriteYes lvl) t,
    by rw [hclick], by rw [hclick], by rw [hclick], rfl, rfl, rfl⟩

/-- Concrete instance of c6_valid_submit_persists, the spec's example:
multilayer true, transmission 85, level elevation 3.2 native units
(converting to 975.36 mm), local mode, write_results false persists the
expected sorted, 4-space-indented JSON text with the elevation rounded
to 975. -/
theorem c6_witness_example :
    ∃ d : JObj,
      (save_button_click
        (UIState.mk true false "85" 1 false true
          [Level.mk (16 / 5)] (some (Level.mk (16 / 5))))
        (FS.mk FileState.absent none true true true "" "")).written = some d ∧
      json_dump_string d =
        "\x7b\n    \"execution_mode\": \"local\",\n    \"level_elevation\": 975,\n    \"multilayer_wall\": true,\n    \"transmission_value\": 85,\n    \"write_results\": false\n\x7d" := by
  obtain ⟨d, h1, h2, h3, h4, h5, h6⟩ :=
    c6_valid_submit_persists
      (UIState.mk true false "85" 1 false true
        [Level.mk (16 / 5)] (some (Level.mk (16 / 5))))
      (FS.mk FileState.absent none true true true "" "")
      (Level.mk (16 / 5)) 85 rfl rfl (by decide) (by decide) rfl rfl
  refine ⟨d, h1, ?_⟩
  have hd : d =
      [("multilayer_wall", JVal.bool true),
       ("transmission_value", JVal.int 85),
       ("level_elevation", JVal.int (pyround (feet_to_mm (16 / 5)))),
       ("execution_mode", JVal.str "local"),
       ("write_results", JVal.bool false)] := by
    have hw : (save_button_click
        (UIState.mk true false "85" 1 false true
          [Level.mk (16 / 5)] (some (Level.mk (16 / 5))))
        (FS.mk FileState.absent none true true true "" "")).written =
        some [("multilayer_wall", JVal.bool true),
          ("transmission_value", JVal.int 85),
          ("level_elevation", JVal.int (pyround (feet_to_mm (16 / 5)))),
          ("execution_mode", JVal.str "local"),
          ("write_results", JVal.bool false)] := rfl
    rw [h1] at hw
    exact (Option.some.injEq _ _).mp hw
  have h975 : pyround (feet_to_mm ((16 : ℚ) / 5)) = 975 := by
    norm_num [pyround, feet_to_mm]
  rw [hd, h975]
  rfl

/-- C7. The save path creates the settings directory when it is absent;
a directory-creation failure or a write failure yields a returned failure
(False) carrying the underlying error text in the shown message instead
of an exception escaping to the caller, and on any such failure the
submit is aborted: the dialog does not close and the settings file is
unchanged. -/
theorem c7_save_error_handling (d : JObj) (ui : UIState) (fs : FS) :
    (fs.dirExists = false → fs.dirCreateOk = true →
      (save_settings_to_file d fs).1.dirExists = true) ∧
    (fs.dirExists = false → fs.dirCreateOk = false →
      save_settings_to_file d fs =
        (fs, false, [Alert.dirError fs.dirErr, Alert.saveError fs.dirErr])) ∧
    (fs.dirExists = true → fs.writeOk = false →
      save_settings_to_file d fs = (fs, false, [Alert.saveError fs.writeErr])) ∧
    (fs.writeOk = false →
      (save_button_click ui fs).closed = false ∧
      (save_button_click ui fs).fs.file = fs.file) ∧
    (fs.dirExists = false → fs.dirCreateOk = false →
      (save_button_click ui fs).closed = false ∧
      (save_button_click ui fs).fs.file = fs.file) := by
  have hsave : fs.writeOk = false → ∀ e : JObj,
      ∃ fs1 msgs, save_settings_to_file e fs = (fs1, false, msgs) ∧
        fs1.file = fs.file := by
    intro hw e
    by_cases hd : fs.dirExists
    · exact ⟨fs, [Alert.saveError fs.writeErr],
        by simp [save_settings_to_file, ensure_settings_directory, hd, hw], rfl⟩
    · by_cases hc : fs.dirCreateOk
      · exact ⟨{ fs with dirExists := true }, [Alert.saveError fs.writeErr],
          by simp [save_settings_to_file, ensure_settings_directory, hd, hc, hw],
          rfl⟩
      · exact ⟨fs, [Alert.dirError fs.dirErr, Alert.saveError fs.dirErr],
          by simp [save_settings_to_file, ensure_settings_directory, hd, hc],
          rfl⟩
  have hsave2 : fs.dirExists = false → fs.dirCreateOk = false → ∀ e : JObj,
      ∃ fs1 msgs, save_settings_to_file e fs = (fs1, false, msgs) ∧
        fs1.file = fs.file := by
    intro hd hc e
    exact ⟨fs, [Alert.dirError fs.dirErr, Alert.saveError fs.dirErr],
      by simp [save_settings_to_file, ensure_settings_directory, hd, hc], rfl⟩
  have hclick : (∀ e : JObj,
      ∃ fs1 msgs, save_settings_to_file e fs = (fs1, false, msgs) ∧
        fs1.file = fs.file) →
      (save_button_click ui fs).closed = false ∧
      (save_button_click ui fs).fs.file = fs.file := by
    intro hfail
    cases hc : collect_ui_data ui with
    | none => simp [save_button_click, hc]
    | some u =>
      cases hv : validate_inputs u.transmission_str with
      | error s => simp [save_button_click, hc, hv]
      | ok t =>
        obtain ⟨fs1, msgs, hs, hfile⟩ := hfail (prepare_settings_data u t)
        simp [save_button_click, hc, hv, hs, hfile]
  refine ⟨?_, ?_, ?_, ?_, ?_⟩
  · intro hd hc
    by_cases hw : fs.writeOk <;>
      simp [save_settings_to_file, ensure_settings_directory, hd, hc, hw]
  · intro hd hc
    simp [save_settings_to_file, ensure_settings_directory, hd, hc]
  · intro hd hw
    simp [save_settings_to_file, ensure_settings_directory, hd, hw]
  · intro hw
    exact hclick (hsave hw)
  · intro hd hc
    exact hclick (hsave2 hd hc)

/-- Concrete instance of c7_save_error_handling: saving with the settings
directory absent and creatable leaves the directory created. -/
theorem c7_witness_creates_directory :
    (save_settings_to_file []
      (FS.mk FileState.absent none false true true "" "")).1.dirExists = true :=
  (c7_save_error_handling []
    (UIState.mk false false "" 0 false false [] none)
    (FS.mk FileState.absent none false true true "" "")).1 rfl rfl

/-- C8. Invariant of the submit path: whenever save_button_click actually
persists a record, that record's transmission_value is an integer in
[0, 100]; out-of-range and non-integer input is rejected by
_validate_inputs before the save step runs. -/
theorem c8_persisted_transmission_in_range (ui : UIState) (fs : FS) (d : JObj)
    (h : (save_button_click ui fs).written = some d) :
    ∃ t : Int, jobjLookup d "transmission_value" = some (JVal.int t) ∧
      0 ≤ t ∧ t ≤ 100 := by
  cases hc : collect_ui_data ui with
  | none => simp [save_button_click, hc] at h
  | some u =>
    cases hv : validate_inputs u.transmission_str with
    | error s => simp [save_button_click, hc, hv] at h
    | ok t =>
      obtain ⟨-, h0, h1⟩ := validate_inputs_ok_bounds hv
      cases hs : save_settings_to_file (prepare_settings_data u t) fs with
      | mk fs1 rest =>
        cases rest with
        | mk ok msgs =>
          cases ok with
          | false => simp [save_button_click, hc, hv, hs] at h
          | true =>
            simp only [save_button_click, hc, hv, hs] at h
            have hd : d = prepare_settings_data u t := by
              simpa using h.symm
            refine ⟨t, ?_, h0, h1⟩
            rw [hd]
            rfl

/-- Concrete instance of c8_persisted_transmission_in_range on a full
valid submit. -/
theorem c8_witness_in_range :
    ∃ t : Int,
      jobjLookup
        [("multilayer_wall", JVal.bool true),
         ("transmission_value", JVal.int 85),
         ("level_elevation", JVal.int (pyround (feet_to_mm (16 / 5)))),
         ("execution_mode", JVal.str "local"),
         ("write_results", JVal.bool false)] "transmission_value" =
        some (JVal.int t) ∧ 0 ≤ t ∧ t ≤ 100 :=
  c8_persisted_transmission_in_range
    (UIState.mk true false "85" 1 false true
      [Level.mk (16 / 5)] (some (Level.mk (16 / 5))))
    (FS.mk FileState.absent none true true true "" "") _ rfl

/-- C9. When the settings file holds valid JSON, _apply_settings_to_ui
falls back per field, not all-or-nothing: each key that is absent takes
its own default (multilayer false, transmission 70, execution mode web
= index 0, write_results true, level selection falling to the first
level), while every key that is present is used as stored. -/
theorem c9_per_field_defaults (d : JObj) (ui s : UIState)
    (h : apply_settings_to_ui d ui = Except.ok s) :
    (jobjLookup d "multilayer_wall" = none → s.radioButtonTrue = false) ∧
    (∀ b, jobjLookup d "multilayer_wall" = some (JVal.bool b) →
      s.radioButtonTrue = b) ∧
    (jobjLookup d "transmission_value" = none →
      s.textBoxTransmission = "70") ∧
    (∀ n : Int, jobjLookup d "transmission_value" = some (JVal.int n) →
      s.textBoxTransmission = toString n) ∧
    (jobjLookup d "execution_mode" = none → s.execModeIndex = 0) ∧
    (∀ v, jobjLookup d "execution_mode" = some v →
      s.execModeIndex = if v = JVal.str "local" then 1 else 0) ∧
    (jobjLookup d "write_results" = none → s.radioWriteYes = true) ∧
    (∀ b, jobjLookup d "write_results" = some (JVal.bool b) →
      s.radioWriteYes = b) ∧
    (jobjLookup d "level_elevation" = none →
      s.selectedLevel = ui.levels.head?) ∧
    (∀ v, jobjLookup d "level_elevation" = some v →
      select_level_by_elevation ui.levels v = Except.ok s.selectedLevel) := by
  simp only [apply_settings_to_ui] at h
  cases hsel : select_level_by_elevation ui.levels
      (jsonGet d "level_elevation" JVal.null) with
  | error e => rw [hsel] at h; simp at h
  | ok sel =>
    rw [hsel] at h
    simp only [Except.ok.injEq] at h
    subst h
    refine ⟨?_, ?_, ?_, ?_, ?_, ?_, ?_, ?_, ?_, ?_⟩
    · intro hnone; simp [jsonGet, hnone, pybool]
    · intro b hsome; simp [jsonGet, hsome, pybool]
    · intro hnone
      simp only [jsonGet, hnone, Option.getD_none]
      rfl
    · intro n hsome; simp [jsonGet, hsome, pystr]
    · intro hnone; simp [jsonGet, hnone]
    · intro v hsome; simp [jsonGet, hsome]
    · intro hnone; simp [jsonGet, hnone, pybool]
    · intro b hsome; simp [jsonGet, hsome, pybool]
    · intro hnone
      rw [jsonGet, hnone] at hsel
      simp only [Option.getD_none] at hsel
      rw [select_level_null_eq] at hsel
      simpa using hsel.symm
    · intro v hsome
      rw [jsonGet, hsome] at hsel
      simpa using hsel

/-- Concrete instance of c9_per_field_defaults: a file holding only
transmission_value 85 populates the transmission box from the file and
everything else from the defaults. -/
theorem c9_witness_partial_file :
    (UIState.mk false true "85" 0 true false [Level.mk 0]
      (some (Level.mk 0))).textBoxTransmission = toString (85 : Int) :=
  (c9_per_field_defaults [("transmission_value", JVal.int 85)]
    (UIState.mk true false "x" 5 false true [Level.mk 0] none)
    (UIState.mk false true "85" 0 true false [Level.mk 0]
      (some (Level.mk 0))) rfl).2.2.2.1 85 rfl

/-- C10. Population maps the stored execution_mode to combo index 1
exactly when it equals the string local and to index 0 for every other
stored value; consequently the next submit collects the mode as local
exactly in the index-1 case and as web otherwise, silently normalizing
any unrecognized stored value to web. -/
theorem c10_exec_mode_normalisation (d : JObj) (ui s : UIState)
    (h : apply_settings_to_ui d ui = Except.ok s) :
    (s.execModeIndex =
      if jsonGet d "execution_mode" (JVal.str "web") = JVal.str "local"
      then 1 else 0) ∧
    (∀ u, collect_ui_data s = some u →
      u.exec_mode =
        if jsonGet d "execution_mode" (JVal.str "web") = JVal.str "local"
        then "local" else "web") := by
  simp only [apply_settings_to_ui] at h
  cases hsel : select_level_by_elevation ui.levels
      (jsonGet d "level_elevation" JVal.null) with
  | error e => rw [hsel] at h; simp at h
  | ok sel =>
    rw [hsel] at h
    simp only [Except.ok.injEq] at h
    subst h
    constructor
    · rfl
    · intro u hu
      cases hsl : sel with
      | none => simp [collect_ui_data, hsl] at hu
      | some lvl =>
        rw [hsl] at hu
        simp only [collect_ui_data, Option.some.injEq] at hu
        subst hu
        by_cases hm :
            jsonGet d "execution_mode" (JVal.str "web") = JVal.str "local" <;>
          simp [hm]

/-- Concrete instance of c10_exec_mode_normalisation: a stored
execution_mode of banana populates index 0 and is collected as web on the
next submit. -/
theorem c10_witness_unrecognized_mode :
    (UIData.mk false "70" "web" true (Level.mk 0)).exec_mode =
      if jsonGet [("execution_mode", JVal.str "banana")] "execution_mode"
          (JVal.str "web") = JVal.str "local"
      then "local" else "web" :=
  (c10_exec_mode_normalisation [("execution_mode", JVal.str "banana")]
    (UIState.mk true false "x" 5 false true [Level.mk 0] none)
    (UIState.mk false true "70" 0 true false [Level.mk 0]
      (some (Level.mk 0))) rfl).2
    (UIData.mk false "70" "web" true (Level.mk 0)) rfl

end Daylight
